import Mathlib

/-!
Shallow embedding of the multiplayer simulation core of `src/play.py`
(the authoritative game server `GameServer`, its tick `update_game_state`,
the per-connection merge in `handle_client`, and the synchronization
client `NetworkClient`).

Modelling conventions:
* Python numbers are modelled as exact rationals `ℚ`; `int(x)` is
  truncation toward zero (`truncQ`).
* Distance tests `math.hypot dx dy < r` are modelled by the exactly
  equivalent rational test `0 < r ∧ dx*dx + dy*dy < r*r`.
* Quantities produced by floating-point trigonometry or by the random
  number generator (cos/sin of an angle, angle updates through
  reflection/perturbation/retargeting, `random.uniform`, `random.random`
  draws, spawn positions) are supplied by an explicit environment
  (`TickEnv`, `EnemyEnv`, `BulletEnv`, `SpawnEnv`); theorems quantify over
  all environments, hence over all values the source could produce.
* Python dict entries that the source reads with an `in`-guard or a
  default (`get`, `not in`) are modelled as `Option` fields; the one
  unguarded read of an optional key (`player["level"]` in the xp-powerup
  branch) makes that operation partial (`Option`), and a `none` result of
  the tick models the uncaught `KeyError`.
* All `time.time()` calls within one tick are modelled by the single
  tick timestamp `TickEnv.now`.
* `list.remove(x)` on an object that is mutated in place always removes
  the occurrence being processed; the model removes exactly that
  occurrence (`splitFirst`).
-/

/-- Global constant from `play.py` line 34. -/
def BULLET_SPEED : ℚ := 7

/-- Global constant from `play.py` line 35. -/
def ENEMY_BULLET_SPEED : ℚ := 5

/-- Global constant from `play.py` line 36. -/
def ENEMY_FIRE_RATE : ℚ := 80

/-- Global constant from `play.py` line 37. -/
def NUM_ENEMIES : Nat := 6

/-- The three difficulty keys that the UI ever assigns to `GameServer.difficulty`. -/
inductive Difficulty where
  | easy
  | normal
  | hard
deriving Repr, DecidableEq

/-- One entry of the `DIFFICULTY_SETTINGS` table (`play.py` lines 48-67). -/
structure DifficultySettings where
  enemy_speed : ℚ
  enemy_health : ℚ
  enemy_damage : ℚ
  xp_multiplier : ℚ
deriving Repr, DecidableEq

/-- The `DIFFICULTY_SETTINGS` table (`play.py` lines 48-67). -/
def DIFFICULTY_SETTINGS : Difficulty → DifficultySettings
  | .easy => { enemy_speed := 3/2, enemy_health := 25, enemy_damage := 8, xp_multiplier := 6/5 }
  | .normal => { enemy_speed := 2, enemy_health := 30, enemy_damage := 10, xp_multiplier := 1 }
  | .hard => { enemy_speed := 5/2, enemy_health := 40, enemy_damage := 15, xp_multiplier := 4/5 }

/-- The five powerup type strings. -/
inductive PowerupType where
  | health
  | shield
  | speed
  | damage
  | xp
deriving Repr, DecidableEq

/-- One `[x, y, angle, penetration, damage]` entry of a payload `new_bullets` list. -/
structure NewBullet where
  x : ℚ
  y : ℚ
  angle : ℚ
  penetration : ℚ
  damage : ℚ
deriving Repr, DecidableEq

/-- A player record as stored in `game_state["players"]`: the deserialized
client payload.  Fields the server reads with a guard or a default are
`Option`; `pos` and `health` are read unguarded by the combat code and are
modelled as always present. -/
structure Player where
  pos : ℚ × ℚ
  health : ℚ
  max_health : Option ℚ
  shield : Option ℚ
  shield_end_time : Option ℚ
  movement_speed_boost : Option ℚ
  speed_end_time : Option ℚ
  damage_boost : Option ℚ
  damage_end_time : Option ℚ
  xp : Option ℚ
  xp_to_next_level : Option ℚ
  level : Option ℚ
  upgrade_points : Option ℚ
  new_bullets : List NewBullet
  send_time : Option ℚ
deriving Repr, DecidableEq

/-- An enemy record as produced by `spawn_enemy` (`play.py` lines 406-420);
the source field `type` is named `etype` here. -/
structure Enemy where
  pos : ℚ × ℚ
  angle : ℚ
  speed : ℚ
  health : ℚ
  max_health : ℚ
  fire_timer : ℚ
  etype : String
  size : ℚ
deriving Repr, DecidableEq

/-- A bullet record (`play.py` lines 722-733 and 845-856). -/
structure Bullet where
  pos : ℚ × ℚ
  angle : ℚ
  penetration : ℚ
  damage : ℚ
  owner : String
deriving Repr, DecidableEq

/-- A powerup record (`play.py` lines 769-773); the source field `type`
is named `ptype` here. -/
structure Powerup where
  pos : ℚ × ℚ
  ptype : PowerupType
  creation_time : ℚ
deriving Repr, DecidableEq

/-- Environment for one `spawn_enemy` call: the random draws of
`play.py` lines 409-419 (position, angle, speed factor in `[0.8, 1.2]`,
initial fire timer, cosmetic type, size). -/
structure SpawnEnv where
  pos : ℚ × ℚ
  angle : ℚ
  speed_factor : ℚ
  fire_timer : ℚ
  etype : String
  size : ℚ

/-- The `spawn_enemy` function (`play.py` lines 406-420); health and
max-health come deterministically from the difficulty settings. -/
def spawn_enemy (difficulty : Difficulty) (r : SpawnEnv) : Enemy :=
  let settings := DIFFICULTY_SETTINGS difficulty
  { pos := r.pos
    angle := r.angle
    speed := settings.enemy_speed * r.speed_factor
    health := settings.enemy_health
    max_health := settings.enemy_health
    fire_timer := r.fire_timer
    etype := r.etype
    size := r.size }

/-- Per-enemy per-tick environment: `c`/`s` are the values of
`cos(angle)`/`sin(angle)` used for movement; `postAngle` is the angle
after the float-valued boundary reflection, random perturbation and
retarget blending of `play.py` lines 791-816; `rearm` is
`ENEMY_FIRE_RATE * uniform(0.8, 1.2)`; `fireAngle` is the fired bullet
angle `atan2(...) + uniform(-inaccuracy, inaccuracy)`. -/
structure EnemyEnv where
  c : ℚ
  s : ℚ
  postAngle : ℚ
  rearm : ℚ
  fireAngle : ℚ

/-- Per-bullet per-tick environment: `c`/`s` are `cos`/`sin` of the
bullet angle; `dropRoll` is the `random.random() < 0.1` powerup-drop
draw; `dropType` the `random.choice` of the drop type; `spawn` the
randomness of the replacement `spawn_enemy` call. -/
structure BulletEnv where
  c : ℚ
  s : ℚ
  dropRoll : Bool
  dropType : PowerupType
  spawn : SpawnEnv

/-- Environment of one tick of `update_game_state`: the tick timestamp
and the random draws for the periodic powerup spawn, indexed families of
enemy and bullet environments. -/
structure TickEnv where
  now : ℚ
  spawnPos : ℚ × ℚ
  spawnType : PowerupType
  enemyEnv : Nat → EnemyEnv
  bulletEnv : Nat → BulletEnv

/-- The mutable server state: the `game_state` dict of `GameServer`
(`play.py` lines 649-655) together with the server attributes read by the
tick (`last_powerup_time`, `powerup_interval`, `difficulty`). -/
structure ServerState where
  players : List (String × Player)
  enemies : List Enemy
  bullets : List Bullet
  powerups : List Powerup
  send_time : ℚ
  last_ping : Option ℚ
  last_powerup_time : ℚ
  powerup_interval : ℚ
  difficulty : Difficulty
deriving Repr, DecidableEq

/-- The part of the state threaded through the bullet-resolution loop. -/
structure Mid where
  players : List (String × Player)
  enemies : List Enemy
  powerups : List Powerup
deriving Repr, DecidableEq

/-- Python `int(...)` on an exact rational: truncation toward zero. -/
def truncQ (q : ℚ) : ℤ :=
  Int.tdiv q.num (q.den : ℤ)

/-- Exact rational model of `math.hypot dx dy < r`. -/
def collideB (dx dy r : ℚ) : Bool :=
  decide (0 < r) && decide (dx * dx + dy * dy < r * r)

/-- Split a list at the first element satisfying `f`: models a Python
`for`-loop that acts on the first match and breaks. -/
def splitFirst {α : Type} (f : α → Bool) : List α → Option (List α × α × List α)
  | [] => none
  | a :: as =>
    if f a then some ([], a, as)
    else
      match splitFirst f as with
      | none => none
      | some (l, x, r) => some (a :: l, x, r)

/-- Dict lookup `players[id]` (first binding of the key). -/
def lookup_player : List (String × Player) → String → Option Player
  | [], _ => none
  | (k, p) :: rest, id => if k = id then some p else lookup_player rest id

/-- Dict assignment `players[id] = v`: replace in place if the key
exists (keeping its position), else append. -/
def set_player : List (String × Player) → String → Player → List (String × Player)
  | [], id, v => [(id, v)]
  | (k, p) :: rest, id, v =>
    if k = id then (id, v) :: rest else (k, p) :: set_player rest id v

/-- In-place mutation of the player stored at a key. -/
def modify_player (players : List (String × Player)) (id : String) (f : Player → Player) :
    List (String × Player) :=
  players.map (fun kp => if kp.1 = id then (kp.1, f kp.2) else kp)

/-- The closest-player scan of `play.py` lines 824-834: fold with a
strict comparison starting from infinity, returning the player and the
squared distance (comparisons of `hypot` values are exactly comparisons
of squared distances). -/
def closest_player (players : List (String × Player)) (pos : ℚ × ℚ) : Option (Player × ℚ) :=
  players.foldl
    (fun acc kp =>
      let d := (kp.2.pos.1 - pos.1) * (kp.2.pos.1 - pos.1) +
               (kp.2.pos.2 - pos.2) * (kp.2.pos.2 - pos.2)
      match acc with
      | none => some (kp.2, d)
      | some (_, m) => if d < m then some (kp.2, d) else acc)
    none

/-- One enemy of the per-enemy loop of `update_game_state`
(`play.py` lines 787-856): move, update the angle (environment-supplied,
see `EnemyEnv`), count down the fire timer and possibly fire a bullet at
the closest player within distance 400. -/
def step_enemy (players : List (String × Player)) (settings : DifficultySettings)
    (e : Enemy) (eenv : EnemyEnv) : Enemy × List Bullet :=
  let pos := (e.pos.1 + e.speed * eenv.c, e.pos.2 + e.speed * eenv.s)
  let angle := eenv.postAngle
  let ft := e.fire_timer - 1
  if ft ≤ 0 then
    let e' := { e with pos := pos, angle := angle, fire_timer := eenv.rearm }
    match closest_player players pos with
    | some (_, dsq) =>
      if dsq < 160000 then
        (e', [{ pos := pos, angle := eenv.fireAngle, penetration := 1,
                damage := settings.enemy_damage, owner := "enemy" }])
      else (e', [])
    | none => (e', [])
  else
    ({ e with pos := pos, angle := angle, fire_timer := ft }, [])

/-- The per-enemy loop, threading the index into the environment and
accumulating fired bullets in order. -/
def enemy_phase_go (players : List (String × Player)) (settings : DifficultySettings)
    (eenv : Nat → EnemyEnv) (i : Nat) : List Enemy → List Enemy × List Bullet
  | [] => ([], [])
  | e :: es =>
    let r := step_enemy players settings e (eenv i)
    let rest := enemy_phase_go players settings eenv (i + 1) es
    (r.1 :: rest.1, r.2 ++ rest.2)

/-- The `spawn_powerup` method (`play.py` lines 759-773): a silent no-op
when five or more powerups already exist. -/
def spawn_powerup (env : TickEnv) (st : ServerState) : ServerState :=
  if 5 ≤ st.powerups.length then st
  else
    { st with powerups := st.powerups ++
        [{ pos := env.spawnPos, ptype := env.spawnType, creation_time := env.now }] }

/-- The opening of `update_game_state` (`play.py` lines 775-785): stamp
the send time, run the periodic powerup spawn when the interval has
elapsed, then expire powerups older than 30 seconds. -/
def tick_prelude (env : TickEnv) (st : ServerState) : ServerState :=
  let st1 := { st with send_time := env.now }
  let st2 :=
    if env.now - st1.last_powerup_time > st1.powerup_interval then
      { spawn_powerup env st1 with last_powerup_time := env.now }
    else st1
  { st2 with
      powerups := st2.powerups.filter (fun pu => ! decide (env.now - pu.creation_time > 30)) }

/-- The enemy section of `update_game_state` (`play.py` lines 787-856):
advance every enemy and append the fired bullets. -/
def enemy_phase (env : TickEnv) (st : ServerState) : ServerState :=
  let r := enemy_phase_go st.players (DIFFICULTY_SETTINGS st.difficulty) env.enemyEnv 0 st.enemies
  { st with enemies := r.1, bullets := st.bullets ++ r.2 }

/-- Damage application of an enemy-owned bullet to a player
(`play.py` lines 929-935): a positive shield absorbs first, overflow
carries to health with the shield clamped to 0; otherwise health takes
the full damage. -/
def apply_enemy_bullet_damage (damage : ℚ) (p : Player) : Player :=
  match p.shield with
  | some s =>
    if 0 < s then
      let s' := s - damage
      if s' < 0 then { p with health := p.health + s', shield := some 0 }
      else { p with shield := some s' }
    else { p with health := p.health - damage }
  | none => { p with health := p.health - damage }

/-- The kill-reward XP grant (`play.py` lines 898-921): default missing
keys, add `10 * xp_multiplier`, and run the single level-up check. -/
def grant_kill_xp (mult : ℚ) (p : Player) : Player :=
  let xp0 := p.xp.getD 0
  let tnl := p.xp_to_next_level.getD 100
  let lvl := p.level.getD 1
  let xp1 := xp0 + 10 * mult
  if tnl ≤ xp1 then
    { p with
        xp := some (xp1 - tnl)
        level := some (lvl + 1)
        xp_to_next_level := some ((truncQ (tnl * (3/2)) : ℤ) : ℚ)
        upgrade_points := some (p.upgrade_points.getD 0 + 1) }
  else
    { p with xp := some xp1, xp_to_next_level := some tnl, level := some lvl }

/-- Application of one powerup to one player (`play.py` lines 945-975).
The xp branch reads `player["level"]` without a default, so a missing
level key with a triggered level-up is the `KeyError` case (`none`). -/
def apply_powerup (now : ℚ) (pt : PowerupType) (p : Player) : Option Player :=
  match pt with
  | .health => some { p with health := min (p.health + 25) (p.max_health.getD 100) }
  | .shield => some { p with shield := some 30, shield_end_time := some (now + 10) }
  | .speed => some { p with movement_speed_boost := some (3/2), speed_end_time := some (now + 5) }
  | .damage => some { p with damage_boost := some 5, damage_end_time := some (now + 8) }
  | .xp =>
    let xp0 := p.xp.getD 0
    let tnl := p.xp_to_next_level.getD 100
    let xp1 := xp0 + 30
    if tnl ≤ xp1 then
      match p.level with
      | none => none
      | some lvl =>
        some { p with
                 xp := some (xp1 - tnl)
                 level := some (lvl + 1)
                 xp_to_next_level := some ((truncQ (tnl * (3/2)) : ℤ) : ℚ)
                 upgrade_points := some (p.upgrade_points.getD 0 + 1) }
    else some { p with xp := some xp1, xp_to_next_level := some tnl }

/-- Collision test of a bullet against an enemy (`play.py` line 871). -/
def enemy_hit_test (b : Bullet) (e : Enemy) : Bool :=
  collideB (b.pos.1 - e.pos.1) (b.pos.2 - e.pos.2) e.size

/-- Collision test of a bullet against a player, radius 20 (`play.py` line 927). -/
def player_hit_test (b : Bullet) (kp : String × Player) : Bool :=
  collideB (b.pos.1 - kp.2.pos.1) (b.pos.2 - kp.2.pos.2) 20

/-- Pickup test of a powerup against a player, radius 25 (`play.py` line 943). -/
def powerup_hit_test (pu : Powerup) (kp : String × Player) : Bool :=
  collideB (pu.pos.1 - kp.2.pos.1) (pu.pos.2 - kp.2.pos.2) 25

/-- Resolution of a player-owned bullet against the first colliding
enemy (`play.py` lines 869-923): subtract damage, decrement penetration,
remove the bullet when penetration drops to 0 or below; on a kill,
optionally drop a powerup, replace the enemy by a fresh spawn, and award
kill XP to a known owner.  Returns the new mid-state and the surviving
bullet, if any. -/
def resolve_enemy_hit (difficulty : Difficulty) (now : ℚ) (benv : BulletEnv)
    (ms : Mid) (b : Bullet) : Mid × Option Bullet :=
  match splitFirst (enemy_hit_test b) ms.enemies with
  | none => (ms, some b)
  | some (l, e, r) =>
    let e' := { e with health := e.health - b.damage }
    let b' := { b with penetration := b.penetration - 1 }
    let keep : Option Bullet := if b'.penetration ≤ 0 then none else some b'
    if e'.health ≤ 0 then
      let powerups :=
        if benv.dropRoll then
          ms.powerups ++ [{ pos := e.pos, ptype := benv.dropType, creation_time := now }]
        else ms.powerups
      let enemies := (l ++ r) ++ [spawn_enemy difficulty benv.spawn]
      let players :=
        if (lookup_player ms.players b.owner).isSome then
          modify_player ms.players b.owner
            (grant_kill_xp (DIFFICULTY_SETTINGS difficulty).xp_multiplier)
        else ms.players
      ({ players := players, enemies := enemies, powerups := powerups }, keep)
    else
      ({ ms with enemies := l ++ e' :: r }, keep)

/-- Resolution of an enemy-owned bullet against the first player within
radius 20 (`play.py` lines 925-939): apply the shield/health damage rule
and consume the bullet on the first hit. -/
def resolve_player_hit (ms : Mid) (b : Bullet) : Mid × Option Bullet :=
  match splitFirst (player_hit_test b) ms.players with
  | none => (ms, some b)
  | some (l, kp, r) =>
    ({ ms with players := l ++ (kp.1, apply_enemy_bullet_damage b.damage kp.2) :: r }, none)

/-- The powerup pickup pass (`play.py` lines 941-978): for each powerup,
the first player within radius 25 receives the effect and the powerup is
removed.  Partial because the xp effect can raise `KeyError`. -/
def powerup_pass (now : ℚ) :
    List Powerup → List (String × Player) → Option (List Powerup × List (String × Player))
  | [], players => some ([], players)
  | pu :: rest, players =>
    match splitFirst (powerup_hit_test pu) players with
    | none =>
      match powerup_pass now rest players with
      | none => none
      | some (pus, pls) => some (pu :: pus, pls)
    | some (l, kp, r) =>
      match apply_powerup now pu.ptype kp.2 with
      | none => none
      | some p' => powerup_pass now rest (l ++ (kp.1, p') :: r)

/-- The owner-dispatched collision pass of the bullet loop: enemy-owned
bullets test against players (`play.py` line 925), others against
enemies (`play.py` line 869); the two branches are mutually exclusive in
the source. -/
def resolve_bullet (difficulty : Difficulty) (now : ℚ) (benv : BulletEnv)
    (ms : Mid) (b : Bullet) : Mid × Option Bullet :=
  if b.owner = "enemy" then resolve_player_hit ms b
  else resolve_enemy_hit difficulty now benv ms b

/-- The owner-specific bullet speed (`play.py` lines 859-860). -/
def bullet_speed (b : Bullet) : ℚ :=
  if b.owner = "enemy" then ENEMY_BULLET_SPEED else BULLET_SPEED

/-- One iteration of the per-bullet loop (`play.py` lines 858-978):
move the bullet at its owner-specific speed, discard it when it leaves
the `[0, W] × [0, H]` play field (skipping the rest of the body), then
run the owner-dispatched collision pass and finally the powerup pickup
pass (which the source nests inside the bullet loop). -/
def step_bullet (W H : ℚ) (difficulty : Difficulty) (now : ℚ) (benv : BulletEnv)
    (ms : Mid) (b : Bullet) : Option (Mid × Option Bullet) :=
  let b := { b with pos := (b.pos.1 + bullet_speed b * benv.c,
                            b.pos.2 + bullet_speed b * benv.s) }
  if b.pos.1 < 0 ∨ W < b.pos.1 ∨ b.pos.2 < 0 ∨ H < b.pos.2 then
    some (ms, none)
  else
    let r := resolve_bullet difficulty now benv ms b
    match powerup_pass now r.1.powerups r.1.players with
    | none => none
    | some (pus, pls) => some ({ r.1 with powerups := pus, players := pls }, r.2)

/-- The per-bullet loop over the snapshot `list(bullets)`, threading the
bullet index into the environment and collecting the surviving bullets
in order. -/
def run_bullets (W H : ℚ) (difficulty : Difficulty) (now : ℚ) (benv : Nat → BulletEnv) :
    Nat → Mid → List Bullet → Option (Mid × List Bullet)
  | _, ms, [] => some (ms, [])
  | i, ms, b :: bs =>
    match step_bullet W H difficulty now (benv i) ms b with
    | none => none
    | some (ms1, keep) =>
      match run_bullets W H difficulty now benv (i + 1) ms1 bs with
      | none => none
      | some (ms2, out) =>
        some (ms2, match keep with | some b' => b' :: out | none => out)

/-- The bullet section of `update_game_state`. -/
def bullet_phase (W H : ℚ) (env : TickEnv) (st : ServerState) : Option ServerState :=
  match run_bullets W H st.difficulty env.now env.bulletEnv 0
      { players := st.players, enemies := st.enemies, powerups := st.powerups } st.bullets with
  | none => none
  | some (ms, out) =>
    some { st with players := ms.players, enemies := ms.enemies,
                   powerups := ms.powerups, bullets := out }

/-- The `update_game_state` method (`play.py` lines 775-978): prelude
(timestamp, powerup spawn and expiry), enemy phase, bullet phase.
`none` models an uncaught exception of the tick. -/
def update_game_state (W H : ℚ) (env : TickEnv) (st : ServerState) : Option ServerState :=
  bullet_phase W H env (enemy_phase env (tick_prelude env st))

/-- Iterated ticks of the world loop. -/
def run_ticks (W H : ℚ) : List TickEnv → ServerState → Option ServerState
  | [], st => some st
  | env :: envs, st =>
    match update_game_state W H env st with
    | none => none
    | some st' => run_ticks W H envs st'

/-- The inbound-message merge of `handle_client` (`play.py` lines
715-738): full replacement of `players[id]`, appending the payload
bullets tagged with the sender, stamping the server time and the last
observed ping. -/
def merge_player_update (st : ServerState) (player_id : String) (pd : Player) (now : ℚ) :
    ServerState :=
  { st with
      players := set_player st.players player_id pd
      bullets := st.bullets ++ pd.new_bullets.map (fun nb =>
        { pos := (nb.x, nb.y), angle := nb.angle, penetration := nb.penetration,
          damage := nb.damage, owner := player_id })
      send_time := now
      last_ping := match pd.send_time with
                   | some t => some (now - t)
                   | none => st.last_ping }

/-- The disconnect cleanup of `handle_client` (`play.py` lines 748-757):
delete the identifier from `players`. -/
def disconnect_cleanup (st : ServerState) (player_id : String) : ServerState :=
  { st with players := st.players.filter (fun kp => ! (kp.1 == player_id)) }

/-- The initial server state (`play.py` lines 649-658): six enemies
spawned at default difficulty, empty collections. -/
def init_server (spawns : Nat → SpawnEnv) (t0 : ℚ) : ServerState :=
  { players := []
    enemies := (List.range NUM_ENEMIES).map (fun i => spawn_enemy .normal (spawns i))
    bullets := []
    powerups := []
    send_time := t0
    last_ping := none
    last_powerup_time := t0
    powerup_interval := 10
    difficulty := .normal }

/-- Iterated enemy-bullet damage applications to one player. -/
def hit_iter (damage : ℚ) : Nat → Player → Player
  | 0, p => p
  | k + 1, p => hit_iter damage k (apply_enemy_bullet_damage damage p)

/-- A full world snapshot as received by the client: the pickled
`game_state` dict, whose `send_time` key may be absent. -/
structure Snapshot where
  players : List (String × Player)
  enemies : List Enemy
  bullets : List Bullet
  powerups : List Powerup
  send_time : Option ℚ
  last_ping : Option ℚ
deriving Repr, DecidableEq

/-- The state of `NetworkClient` relevant to receiving. -/
structure NetworkClient where
  connected : Bool
  game_state : Snapshot
  last_received : ℚ
  ping : ℤ
deriving Repr, DecidableEq

/-- One successful iteration of `NetworkClient.receive_data`
(`play.py` lines 608-629): the snapshot replaces the cached state, and
the ping is recomputed as `int((receive_time - send_time) * 1000)`
exactly when the snapshot carries a `send_time` key. -/
def receive_data (c : NetworkClient) (snap : Snapshot) (receive_time : ℚ) : NetworkClient :=
  { c with
      game_state := snap
      last_received := receive_time
      ping := match snap.send_time with
              | some t => truncQ ((receive_time - t) * 1000)
              | none => c.ping }

/-- A freshly connected client (`play.py` lines 560-574): empty cached
state, ping 0, no message ever sent. -/
def init_client (t0 : ℚ) : NetworkClient :=
  { connected := true
    game_state := { players := [], enemies := [], bullets := [], powerups := [],
                    send_time := none, last_ping := none }
    last_received := t0
    ping := 0 }

/-- A baseline player payload: position `(500, 500)`, health 100, all
optional dict keys absent. -/
def basePlayer : Player :=
  { pos := (500, 500), health := 100, max_health := none, shield := none,
    shield_end_time := none, movement_speed_boost := none, speed_end_time := none,
    damage_boost := none, damage_end_time := none, xp := none, xp_to_next_level := none,
    level := none, upgrade_points := none, new_bullets := [], send_time := none }

/-- A fixed spawn environment for concrete runs. -/
def spawn0 : SpawnEnv :=
  { pos := (200, 200), angle := 0, speed_factor := 1, fire_timer := 10,
    etype := "fast", size := 20 }

/-- A fixed enemy environment: movement along the x axis. -/
def eenv0 : EnemyEnv :=
  { c := 1, s := 0, postAngle := 0, rearm := 80, fireAngle := 0 }

/-- A fixed bullet environment with the powerup-drop roll failing. -/
def benv0 : BulletEnv :=
  { c := 1, s := 0, dropRoll := false, dropType := .health, spawn := spawn0 }

/-- An empty mid-state. -/
def ms0 : Mid := { players := [], enemies := [], powerups := [] }

/-- The player of the C6 scenario: registered as `p1`, XP 0, threshold 100. -/
def pC6 : Player :=
  { basePlayer with xp := some 0, xp_to_next_level := some 100, level := some 1,
                    upgrade_points := some 0 }

/-- The enemy of the C6 scenario: health 5, stationary, not about to fire. -/
def eC6 : Enemy :=
  { pos := (100, 100), angle := 0, speed := 0, health := 5, max_health := 30,
    fire_timer := 5, etype := "normal", size := 20 }

/-- The bullet of the C6 scenario: damage 10, penetration 1, owner `p1`,
placed so that its movement step lands exactly on the enemy. -/
def bC6 : Bullet :=
  { pos := (93, 100), angle := 0, penetration := 1, damage := 10, owner := "p1" }

/-- The tick environment of the C6 scenario. -/
def envC6 : TickEnv :=
  { now := 1, spawnPos := (300, 300), spawnType := .health,
    enemyEnv := fun _ => eenv0, bulletEnv := fun _ => benv0 }

/-- The initial world of the C6 scenario. -/
def stC6 : ServerState :=
  { players := [("p1", pC6)], enemies := [eC6], bullets := [bC6], powerups := [],
    send_time := 0, last_ping := none, last_powerup_time := 0, powerup_interval := 10,
    difficulty := .normal }

/-- The C4 scenario: a player standing on a powerup, no bullets in flight. -/
def pC4 : Player := { basePlayer with pos := (100, 100) }

/-- A distant idle enemy for the C4 scenario. -/
def eC4 : Enemy :=
  { pos := (900, 100), angle := 0, speed := 0, health := 30, max_health := 30,
    fire_timer := 50, etype := "normal", size := 20 }

/-- The powerup of the C4 scenario, directly under the player. -/
def puC4 : Powerup := { pos := (100, 100), ptype := .health, creation_time := 0 }

/-- The tick environment of the C4 scenario. -/
def envC4 : TickEnv :=
  { now := 1, spawnPos := (300, 300), spawnType := .health,
    enemyEnv := fun _ => eenv0, bulletEnv := fun _ => benv0 }

/-- The initial world of the C4 scenario. -/
def stC4 : ServerState :=
  { players := [("p1", pC4)], enemies := [eC4], bullets := [], powerups := [puC4],
    send_time := 0, last_ping := none, last_powerup_time := 0, powerup_interval := 10,
    difficulty := .normal }

/-- The empty initial world used for merge counterexamples. -/
def st3 : ServerState :=
  { players := [], enemies := [], bullets := [], powerups := [], send_time := 0,
    last_ping := none, last_powerup_time := 0, powerup_interval := 10,
    difficulty := .normal }

/-- A client payload carrying one injected bullet with penetration -5. -/
def pd3 : Player :=
  { basePlayer with new_bullets := [{ x := 5, y := 5, angle := 0, penetration := -5, damage := 3 }] }

/-- A bullet with penetration already 0, positioned on an enemy. -/
def b3 : Bullet :=
  { pos := (100, 100), angle := 0, penetration := 0, damage := 10, owner := "p1" }

/-- A healthy enemy under the b3 bullet. -/
def e3 : Enemy :=
  { pos := (100, 100), angle := 0, speed := 0, health := 30, max_health := 30,
    fire_timer := 50, etype := "normal", size := 20 }

/-- Mid-state holding just the e3 enemy. -/
def ms3 : Mid := { players := [], enemies := [e3], powerups := [] }

/-- A bullet with penetration 2, positioned on the e3 enemy. -/
def bW3 : Bullet :=
  { pos := (100, 100), angle := 0, penetration := 2, damage := 10, owner := "p1" }

/-- The C8 scenario: five powerups already present and an enemy about to
die with the drop roll succeeding. -/
def eC8 : Enemy :=
  { pos := (100, 100), angle := 0, speed := 0, health := 5, max_health := 30,
    fire_timer := 50, etype := "normal", size := 20 }

/-- The killing bullet of the C8 scenario (owner not registered). -/
def bC8 : Bullet :=
  { pos := (93, 100), angle := 0, penetration := 1, damage := 10, owner := "nobody" }

/-- A parked powerup far from every player. -/
def puC8 : Powerup := { pos := (600, 600), ptype := .shield, creation_time := 0 }

/-- Bullet environment with the drop roll succeeding. -/
def benv8 : BulletEnv :=
  { c := 1, s := 0, dropRoll := true, dropType := .xp, spawn := spawn0 }

/-- The tick environment of the C8 scenario. -/
def envC8 : TickEnv :=
  { now := 1, spawnPos := (300, 300), spawnType := .health,
    enemyEnv := fun _ => eenv0, bulletEnv := fun _ => benv8 }

/-- The initial world of the C8 scenario: the powerup store is full. -/
def stC8 : ServerState :=
  { players := [], enemies := [eC8], bullets := [bC8],
    powerups := [puC8, puC8, puC8, puC8, puC8], send_time := 0, last_ping := none,
    last_powerup_time := 0, powerup_interval := 10, difficulty := .normal }

/-- A snapshot carrying a server timestamp. -/
def snap9 : Snapshot :=
  { players := [], enemies := [], bullets := [], powerups := [], send_time := some 1,
    last_ping := none }

/-- The player of the C5 scenario: XP 90, threshold 100, level 1. -/
def pC5 : Player :=
  { basePlayer with xp := some 90, xp_to_next_level := some 100, level := some 1,
                    upgrade_points := some 0 }

/-- The player of the C1 scenario: shield 10, health 100. -/
def pC1 : Player := { basePlayer with shield := some 10 }

/-- A payload with no new bullets for the merge-idempotence witness. -/
def pd7 : Player := { basePlayer with health := 50 }

/-- The expected world after the C6 tick: enemy replaced by the fresh
spawn, bullet gone, owner credited 10 XP. -/
def stC6' : ServerState :=
  { players := [("p1", { pC6 with xp := some 10, xp_to_next_level := some 100,
                                  level := some 1 })],
    enemies := [spawn_enemy .normal spawn0],
    bullets := [], powerups := [], send_time := 1, last_ping := none,
    last_powerup_time := 0, powerup_interval := 10, difficulty := .normal }

/-- The expected world after the C4 tick: the powerup is still there and
the player is untouched, because the pickup pass never ran. -/
def stC4' : ServerState :=
  { players := [("p1", pC4)],
    enemies := [{ eC4 with fire_timer := 49 }],
    bullets := [], powerups := [puC4], send_time := 1, last_ping := none,
    last_powerup_time := 0, powerup_interval := 10, difficulty := .normal }

theorem splitFirst_eq {α : Type} (f : α → Bool) :
    ∀ (xs l : List α) (x : α) (r : List α),
      splitFirst f xs = some (l, x, r) → xs = l ++ x :: r := by
  intro xs
  induction xs with
  | nil => intro l x r h; simp [splitFirst] at h
  | cons a as ih =>
    intro l x r h
    by_cases hf : f a
    · simp [splitFirst, hf] at h
      obtain ⟨h1, h2, h3⟩ := h
      subst h1; subst h2; subst h3
      simp
    · simp only [splitFirst, hf, if_neg, Bool.false_eq_true, if_false] at h
      cases hsp : splitFirst f as with
      | none => rw [hsp] at h; simp at h
      | some t =>
        obtain ⟨l', x', r'⟩ := t
        rw [hsp] at h
        simp only [Option.some.injEq, Prod.mk.injEq] at h
        obtain ⟨h1, h2, h3⟩ := h
        subst h1; subst h2; subst h3
        simpa using congrArg (a :: ·) (ih l' x' r' hsp)

theorem modify_player_keys (players : List (String × Player)) (id : String)
    (f : Player → Player) :
    (modify_player players id f).map Prod.fst = players.map Prod.fst := by
  induction players with
  | nil => rfl
  | cons kp rest ih =>
    simp only [modify_player, List.map_cons] at ih ⊢
    by_cases h : kp.1 = id
    · simp [h, ih]
    · simp [h, ih]

theorem resolve_enemy_hit_enemies_length (difficulty : Difficulty) (now : ℚ)
    (benv : BulletEnv) (ms : Mid) (b : Bullet) :
    (resolve_enemy_hit difficulty now benv ms b).1.enemies.length = ms.enemies.length := by
  unfold resolve_enemy_hit
  cases hsp : splitFirst (enemy_hit_test b) ms.enemies with
  | none => rfl
  | some t =>
    obtain ⟨l, e, r⟩ := t
    have hx := splitFirst_eq _ _ _ _ _ hsp
    by_cases hk : e.health - b.damage ≤ 0
    · simp only [hx, hk, if_true, List.length_append, List.length_cons,
        List.length_singleton, List.length_nil]
      omega
    · simp only [hx, hk, if_false, List.length_append, List.length_cons]

theorem resolve_enemy_hit_player_keys (difficulty : Difficulty) (now : ℚ)
    (benv : BulletEnv) (ms : Mid) (b : Bullet) :
    (resolve_enemy_hit difficulty now benv ms b).1.players.map Prod.fst =
      ms.players.map Prod.fst := by
  unfold resolve_enemy_hit
  cases hsp : splitFirst (enemy_hit_test b) ms.enemies with
  | none => rfl
  | some t =>
    obtain ⟨l, e, r⟩ := t
    by_cases hk : e.health - b.damage ≤ 0
    · by_cases ho : (lookup_player ms.players b.owner).isSome
      · simp [hk, ho, modify_player_keys]
      · simp [hk, ho]
    · simp [hk]

theorem resolve_player_hit_enemies (ms : Mid) (b : Bullet) :
    (resolve_player_hit ms b).1.enemies = ms.enemies := by
  unfold resolve_player_hit
  cases hsp : splitFirst (player_hit_test b) ms.players with
  | none => rfl
  | some t => obtain ⟨l, kp, r⟩ := t; rfl

theorem resolve_player_hit_keys (ms : Mid) (b : Bullet) :
    (resolve_player_hit ms b).1.players.map Prod.fst = ms.players.map Prod.fst := by
  unfold resolve_player_hit
  cases hsp : splitFirst (player_hit_test b) ms.players with
  | none => rfl
  | some t =>
    obtain ⟨l, kp, r⟩ := t
    have hx := splitFirst_eq _ _ _ _ _ hsp
    simp [hx]

theorem powerup_pass_keys (now : ℚ) :
    ∀ (pus : List Powerup) (players : List (String × Player))
      (res : List Powerup × List (String × Player)),
      powerup_pass now pus players = some res →
      res.2.map Prod.fst = players.map Prod.fst := by
  intro pus
  induction pus with
  | nil =>
    intro players res h
    simp [powerup_pass] at h
    simp [← h]
  | cons pu rest ih =>
    intro players res h
    simp only [powerup_pass] at h
    cases hsp : splitFirst (powerup_hit_test pu) players with
    | none =>
      rw [hsp] at h
      cases hpp : powerup_pass now rest players with
      | none => rw [hpp] at h; simp at h
      | some t =>
        rw [hpp] at h
        simp only [Option.some.injEq] at h
        have := ih players t hpp
        rw [← h]
        simpa using this
    | some t =>
      obtain ⟨l, kp, r⟩ := t
      rw [hsp] at h
      dsimp only at h
      cases hap : apply_powerup now pu.ptype kp.2 with
      | none => rw [hap] at h; simp at h
      | some p' =>
        rw [hap] at h
        have hx := splitFirst_eq _ _ _ _ _ hsp
        have := ih _ _ h
        rw [this, hx]
        simp

theorem resolve_bullet_enemies_length (difficulty : Difficulty) (now : ℚ)
    (benv : BulletEnv) (ms : Mid) (b : Bullet) :
    (resolve_bullet difficulty now benv ms b).1.enemies.length = ms.enemies.length := by
  unfold resolve_bullet
  by_cases how : b.owner = "enemy"
  · simp [how, resolve_player_hit_enemies]
  · simp [how, resolve_enemy_hit_enemies_length]

theorem resolve_bullet_player_keys (difficulty : Difficulty) (now : ℚ)
    (benv : BulletEnv) (ms : Mid) (b : Bullet) :
    (resolve_bullet difficulty now benv ms b).1.players.map Prod.fst =
      ms.players.map Prod.fst := by
  unfold resolve_bullet
  by_cases how : b.owner = "enemy"
  · simp [how, resolve_player_hit_keys]
  · simp [how, resolve_enemy_hit_player_keys]

theorem step_bullet_inv (W H : ℚ) (difficulty : Difficulty) (now : ℚ) (benv : BulletEnv)
    (ms : Mid) (b : Bullet) (ms' : Mid) (keep : Option Bullet)
    (h : step_bullet W H difficulty now benv ms b = some (ms', keep)) :
    ms'.enemies.length = ms.enemies.length ∧
    ms'.players.map Prod.fst = ms.players.map Prod.fst := by
  simp only [step_bullet] at h
  split at h
  · rw [Option.some.injEq, Prod.mk.injEq] at h
    obtain ⟨h1, h2⟩ := h
    subst h1
    exact ⟨rfl, rfl⟩
  · split at h
    · exact Option.noConfusion h
    · rename_i pus pls heq
      rw [Option.some.injEq, Prod.mk.injEq] at h
      obtain ⟨h1, h2⟩ := h
      subst h1
      refine ⟨resolve_bullet_enemies_length difficulty now benv ms _, ?_⟩
      calc pls.map Prod.fst
          = (resolve_bullet difficulty now benv ms _).1.players.map Prod.fst :=
            powerup_pass_keys now _ _ (pus, pls) heq
        _ = ms.players.map Prod.fst := resolve_bullet_player_keys difficulty now benv ms _

theorem run_bullets_inv (W H : ℚ) (difficulty : Difficulty) (now : ℚ)
    (benv : Nat → BulletEnv) :
    ∀ (bs : List Bullet) (i : Nat) (ms : Mid) (res : Mid × List Bullet),
      run_bullets W H difficulty now benv i ms bs = some res →
      res.1.enemies.length = ms.enemies.length ∧
      res.1.players.map Prod.fst = ms.players.map Prod.fst := by
  intro bs
  induction bs with
  | nil =>
    intro i ms res h
    simp [run_bullets] at h
    simp [← h]
  | cons b bs ih =>
    intro i ms res h
    simp only [run_bullets] at h
    cases hsb : step_bullet W H difficulty now (benv i) ms b with
    | none => rw [hsb] at h; exact Option.noConfusion h
    | some t =>
      obtain ⟨ms1, keep⟩ := t
      rw [hsb] at h
      dsimp only at h
      cases hrb : run_bullets W H difficulty now benv (i + 1) ms1 bs with
      | none => rw [hrb] at h; exact Option.noConfusion h
      | some t2 =>
        obtain ⟨ms2, out⟩ := t2
        rw [hrb] at h
        dsimp only at h
        rw [Option.some.injEq] at h
        have h1 := step_bullet_inv W H difficulty now (benv i) ms b ms1 keep hsb
        have h2 := ih (i + 1) ms1 (ms2, out) hrb
        have hres1 : res.1 = ms2 := by rw [← h]
        rw [hres1]
        exact ⟨h2.1.trans h1.1, h2.2.trans h1.2⟩

theorem spawn_powerup_enemies (env : TickEnv) (st : ServerState) :
    (spawn_powerup env st).enemies = st.enemies := by
  unfold spawn_powerup
  split <;> rfl

theorem spawn_powerup_players (env : TickEnv) (st : ServerState) :
    (spawn_powerup env st).players = st.players := by
  unfold spawn_powerup
  split <;> rfl

theorem tick_prelude_enemies (env : TickEnv) (st : ServerState) :
    (tick_prelude env st).enemies = st.enemies := by
  simp only [tick_prelude]
  split
  · exact spawn_powerup_enemies env _
  · rfl

theorem tick_prelude_players (env : TickEnv) (st : ServerState) :
    (tick_prelude env st).players = st.players := by
  simp only [tick_prelude]
  split
  · exact spawn_powerup_players env _
  · rfl

theorem enemy_phase_go_length (players : List (String × Player))
    (settings : DifficultySettings) (eenv : Nat → EnemyEnv) :
    ∀ (es : List Enemy) (i : Nat),
      (enemy_phase_go players settings eenv i es).1.length = es.length := by
  intro es
  induction es with
  | nil => intro i; rfl
  | cons e es ih => intro i; simp [enemy_phase_go, ih]

theorem enemy_phase_enemies_length (env : TickEnv) (st : ServerState) :
    (enemy_phase env st).enemies.length = st.enemies.length := by
  unfold enemy_phase
  exact enemy_phase_go_length _ _ _ st.enemies 0

theorem enemy_phase_players (env : TickEnv) (st : ServerState) :
    (enemy_phase env st).players = st.players := rfl

theorem update_enemies_length (W H : ℚ) (env : TickEnv) (st st' : ServerState)
    (h : update_game_state W H env st = some st') :
    st'.enemies.length = st.enemies.length := by
  unfold update_game_state bullet_phase at h
  cases hrb : run_bullets W H (enemy_phase env (tick_prelude env st)).difficulty env.now
      env.bulletEnv 0
      { players := (enemy_phase env (tick_prelude env st)).players,
        enemies := (enemy_phase env (tick_prelude env st)).enemies,
        powerups := (enemy_phase env (tick_prelude env st)).powerups }
      (enemy_phase env (tick_prelude env st)).bullets with
  | none => rw [hrb] at h; exact Option.noConfusion h
  | some t =>
    obtain ⟨ms, out⟩ := t
    rw [hrb] at h
    dsimp only at h
    rw [Option.some.injEq] at h
    have hinv := run_bullets_inv W H _ env.now env.bulletEnv _ 0 _ (ms, out) hrb
    have hst' : st'.enemies = ms.enemies := by rw [← h]
    rw [hst', hinv.1]
    show (enemy_phase env (tick_prelude env st)).enemies.length = st.enemies.length
    rw [enemy_phase_enemies_length, tick_prelude_enemies]

theorem update_player_keys (W H : ℚ) (env : TickEnv) (st st' : ServerState)
    (h : update_game_state W H env st = some st') :
    st'.players.map Prod.fst = st.players.map Prod.fst := by
  unfold update_game_state bullet_phase at h
  cases hrb : run_bullets W H (enemy_phase env (tick_prelude env st)).difficulty env.now
      env.bulletEnv 0
      { players := (enemy_phase env (tick_prelude env st)).players,
        enemies := (enemy_phase env (tick_prelude env st)).enemies,
        powerups := (enemy_phase env (tick_prelude env st)).powerups }
      (enemy_phase env (tick_prelude env st)).bullets with
  | none => rw [hrb] at h; exact Option.noConfusion h
  | some t =>
    obtain ⟨ms, out⟩ := t
    rw [hrb] at h
    dsimp only at h
    rw [Option.some.injEq] at h
    have hinv := run_bullets_inv W H _ env.now env.bulletEnv _ 0 _ (ms, out) hrb
    have hst' : st'.players = ms.players := by rw [← h]
    rw [hst', hinv.2]
    show (enemy_phase env (tick_prelude env st)).players.map Prod.fst =
      st.players.map Prod.fst
    rw [enemy_phase_players, tick_prelude_players]

theorem set_player_idem (l : List (String × Player)) (id : String) (v : Player) :
    set_player (set_player l id v) id v = set_player l id v := by
  induction l with
  | nil => simp [set_player]
  | cons kp rest ih =>
    obtain ⟨k, p⟩ := kp
    by_cases h : k = id
    · simp [set_player, h]
    · simp [set_player, h, ih]

theorem lookup_filter_ne (players : List (String × Player)) (id : String) :
    lookup_player (players.filter (fun kp => ! (kp.1 == id))) id = none := by
  induction players with
  | nil => rfl
  | cons kp rest ih =>
    obtain ⟨k, p⟩ := kp
    by_cases h : k = id
    · simp [h, ih]
    · simp only [List.filter_cons]
      rw [show (!(((k, p) : String × Player).1 == id)) = true by simp [h]]
      simp only [lookup_player]
      rw [if_neg h]
      exact ih

theorem hit_iter_spec (d : ℚ) :
    ∀ (k : Nat) (p : Player), p.shield = none →
      (hit_iter d k p).health = p.health - k * d ∧ (hit_iter d k p).shield = none := by
  intro k
  induction k with
  | zero => intro p hs; simp [hit_iter, hs]
  | succ k ih =>
    intro p hs
    have happ : apply_enemy_bullet_damage d p = { p with health := p.health - d } := by
      unfold apply_enemy_bullet_damage
      rw [hs]
    have h2 := ih (apply_enemy_bullet_damage d p) (by rw [happ]; exact hs)
    constructor
    · show (hit_iter d k (apply_enemy_bullet_damage d p)).health = _
      rw [h2.1, happ]
      push_cast
      ring
    · exact h2.2

/-- C1: when an enemy-owned bullet hits a player, a positive shield
absorbs the damage first; if the subtraction would drive the shield
below 0, the shield is clamped to 0 and exactly the excess is taken from
health in the same step; a zero or absent shield takes the full damage
on health; and the bullet is consumed on its first player hit. -/
theorem C1_enemy_bullet_shield_rule (p : Player) (d : ℚ) (ms : Mid) (b : Bullet) :
    (∀ s, p.shield = some s → 0 < s → s - d < 0 →
      apply_enemy_bullet_damage d p =
        { p with health := p.health - (d - s), shield := some 0 }) ∧
    (∀ s, p.shield = some s → 0 < s → 0 ≤ s - d →
      apply_enemy_bullet_damage d p = { p with shield := some (s - d) }) ∧
    (p.shield = some 0 →
      apply_enemy_bullet_damage d p = { p with health := p.health - d }) ∧
    (p.shield = none →
      apply_enemy_bullet_damage d p = { p with health := p.health - d }) ∧
    (∀ l kp r, splitFirst (player_hit_test b) ms.players = some (l, kp, r) →
      resolve_player_hit ms b =
        ({ ms with players := l ++ (kp.1, apply_enemy_bullet_damage b.damage kp.2) :: r },
         none)) := by
  refine ⟨?_, ?_, ?_, ?_, ?_⟩
  · intro s hs hpos hover
    unfold apply_enemy_bullet_damage
    rw [hs]
    dsimp only
    rw [if_pos hpos, if_pos hover]
    have hq : p.health + (s - d) = p.health - (d - s) := by ring
    rw [hq]
  · intro s hs hpos hnon
    unfold apply_enemy_bullet_damage
    rw [hs]
    dsimp only
    rw [if_pos hpos, if_neg (not_lt.mpr hnon)]
  · intro hs
    unfold apply_enemy_bullet_damage
    rw [hs]
    dsimp only
    rw [if_neg (lt_irrefl (0 : ℚ))]
  · intro hs
    unfold apply_enemy_bullet_damage
    rw [hs]
  · intro l kp r hsp
    unfold resolve_player_hit
    rw [hsp]

/-- Witness for C1: the spec scenario, shield 10 hit for 15 damage. -/
theorem C1_enemy_bullet_shield_rule_witness :
    apply_enemy_bullet_damage 15 pC1 = { pC1 with health := 95, shield := some 0 } := by
  have h := (C1_enemy_bullet_shield_rule pC1 15 ms0 bC6).1 10 rfl (by norm_num) (by norm_num)
  refine h.trans ?_
  norm_num [pC1, basePlayer]

/-- C2: every tick of the world loop preserves the length of the enemy
collection (death removal is paired with an immediate respawn), hence
any number of ticks does, and the initial enemy count is `NUM_ENEMIES`. -/
theorem C2_enemy_count_invariant (W H : ℚ) (envs : List TickEnv) (st st' : ServerState)
    (spawns : Nat → SpawnEnv) (t0 : ℚ)
    (h : run_ticks W H envs st = some st') :
    st'.enemies.length = st.enemies.length ∧
    (init_server spawns t0).enemies.length = NUM_ENEMIES := by
  constructor
  · induction envs generalizing st with
    | nil =>
      simp only [run_ticks, Option.some.injEq] at h
      rw [← h]
    | cons env envs ih =>
      simp only [run_ticks] at h
      cases hu : update_game_state W H env st with
      | none => rw [hu] at h; exact Option.noConfusion h
      | some st1 =>
        rw [hu] at h
        exact (ih st1 h).trans (update_enemies_length W H env st st1 hu)
  · simp [init_server]

/-- Witness for C2 at a concrete one-tick run. -/
theorem C2_enemy_count_invariant_witness :
    run_ticks 1280 720 [envC4] stC4 = some stC4' ∧
    stC4'.enemies.length = stC4.enemies.length ∧
    (init_server (fun _ => spawn0) 0).enemies.length = NUM_ENEMIES := by
  have h : run_ticks 1280 720 [envC4] stC4 = some stC4' := by
    norm_num +decide [run_ticks, update_game_state, tick_prelude, spawn_powerup, enemy_phase,
      enemy_phase_go, step_enemy, closest_player, bullet_phase, run_bullets, step_bullet,
      bullet_speed, resolve_bullet, resolve_player_hit, resolve_enemy_hit, splitFirst,
      enemy_hit_test, player_hit_test, powerup_hit_test, collideB, powerup_pass, apply_powerup,
      apply_enemy_bullet_damage, grant_kill_xp, modify_player, lookup_player, spawn_enemy,
      DIFFICULTY_SETTINGS, BULLET_SPEED, ENEMY_BULLET_SPEED, envC4, stC4, pC4, eC4, puC4,
      spawn0, eenv0, benv0, basePlayer, stC4']
  have h2 := C2_enemy_count_invariant 1280 720 [envC4] stC4 stC4' (fun _ => spawn0) 0 h
  exact ⟨h, h2.1, h2.2⟩

/-- C3 counterexample: the merge of a client payload carrying a bullet
with penetration -5 puts a bullet with a negative penetration counter
into World State, and a bullet that enters a hit with penetration 0 is
removed with its counter driven to -1, not 0. -/
theorem C3_penetration_counterexample :
    (merge_player_update st3 "p1" pd3 0).bullets.map Bullet.penetration = [-5] ∧
    (resolve_enemy_hit Difficulty.normal 0 benv0 ms3 b3).2 = none ∧
    b3.penetration - 1 = -1 := by
  refine ⟨by decide, ?_, by norm_num [b3]⟩
  norm_num +decide [resolve_enemy_hit, splitFirst, enemy_hit_test, collideB, ms3, e3, b3,
    lookup_player, spawn_enemy, DIFFICULTY_SETTINGS, modify_player, grant_kill_xp]

/-- C3 amended: for a bullet whose penetration is at least 1 (every
bullet the game itself creates starts at 1 or more), an enemy hit
decreases the counter by exactly 1, the counter never becomes negative,
and the bullet is removed exactly when the counter reaches 0; bullets
injected by clients may carry zero or negative penetration, for which
the hit drives the counter below zero and removes the bullet. -/
theorem C3_penetration_amended (difficulty : Difficulty) (now : ℚ) (benv : BulletEnv)
    (ms : Mid) (b : Bullet) (l : List Enemy) (e : Enemy) (r : List Enemy)
    (h1 : 1 ≤ b.penetration)
    (hhit : splitFirst (enemy_hit_test b) ms.enemies = some (l, e, r)) :
    (resolve_enemy_hit difficulty now benv ms b).2 =
      (if b.penetration = 1 then none
       else some { b with penetration := b.penetration - 1 }) ∧
    0 ≤ b.penetration - 1 := by
  constructor
  · unfold resolve_enemy_hit
    rw [hhit]
    dsimp only
    rw [apply_ite Prod.snd]
    simp only [ite_self]
    by_cases hp : b.penetration = 1
    · simp [hp]
    · have hgt : 1 < b.penetration := lt_of_le_of_ne h1 (Ne.symm hp)
      have hno : ¬ (b.penetration - 1 ≤ 0) := by linarith
      simp [hp, hno]
  · linarith

/-- Witness for C3 amended: a penetration-2 bullet survives its hit at
penetration 1. -/
theorem C3_penetration_amended_witness :
    splitFirst (enemy_hit_test bW3) ms3.enemies = some ([], e3, []) ∧
    (resolve_enemy_hit Difficulty.normal 0 benv0 ms3 bW3).2 =
      some { bW3 with penetration := 1 } ∧
    (0 : ℚ) ≤ bW3.penetration - 1 := by
  have hs : splitFirst (enemy_hit_test bW3) ms3.enemies = some ([], e3, []) := by
    norm_num +decide [splitFirst, enemy_hit_test, collideB, ms3, e3, bW3]
  have h := C3_penetration_amended Difficulty.normal 0 benv0 ms3 bW3 [] e3 []
    (by norm_num [bW3]) hs
  refine ⟨hs, h.1.trans ?_, h.2⟩
  norm_num [bW3]

/-- C4: with a player standing inside the pickup radius of a powerup and
no bullets in flight, the tick leaves the powerup in place and the
player untouched, because the source indents the pickup loop inside the
per-bullet loop; the spec requires the pickup to happen on every tick. -/
theorem C4_pickup_skipped_without_bullets :
    update_game_state 1280 720 envC4 stC4 = some stC4' ∧
    stC4'.powerups = stC4.powerups ∧
    lookup_player stC4'.players "p1" = some pC4 ∧
    powerup_hit_test puC4 ("p1", pC4) = true := by
  refine ⟨?_, by decide, by decide, ?_⟩
  · norm_num +decide [update_game_state, tick_prelude, spawn_powerup, enemy_phase,
      enemy_phase_go, step_enemy, closest_player, bullet_phase, run_bullets, step_bullet,
      bullet_speed, resolve_bullet, resolve_player_hit, resolve_enemy_hit, splitFirst,
      enemy_hit_test, player_hit_test, powerup_hit_test, collideB, powerup_pass, apply_powerup,
      apply_enemy_bullet_damage, grant_kill_xp, modify_player, lookup_player, spawn_enemy,
      DIFFICULTY_SETTINGS, BULLET_SPEED, ENEMY_BULLET_SPEED, envC4, stC4, pC4, eC4, puC4,
      spawn0, eenv0, benv0, basePlayer, stC4']
  · norm_num +decide [powerup_hit_test, collideB, puC4, pC4, basePlayer]

/-- C5: a single XP grant that reaches the threshold applies exactly one
level-up: level + 1, the threshold subtracted from XP, the threshold
grown to `int(threshold * 1.5)`, and one upgrade point added — for both
the kill-reward grant and the xp-powerup grant. -/
theorem C5_single_level_up (p : Player) (x t lvl mult now : ℚ)
    (hx : p.xp = some x) (ht : p.xp_to_next_level = some t) (hl : p.level = some lvl) :
    (t ≤ x + 10 * mult →
      grant_kill_xp mult p =
        { p with xp := some (x + 10 * mult - t), level := some (lvl + 1),
                 xp_to_next_level := some ((truncQ (t * (3/2)) : ℤ) : ℚ),
                 upgrade_points := some (p.upgrade_points.getD 0 + 1) }) ∧
    (t ≤ x + 30 →
      apply_powerup now PowerupType.xp p =
        some { p with xp := some (x + 30 - t), level := some (lvl + 1),
                      xp_to_next_level := some ((truncQ (t * (3/2)) : ℤ) : ℚ),
                      upgrade_points := some (p.upgrade_points.getD 0 + 1) }) := by
  constructor
  · intro hge
    unfold grant_kill_xp
    rw [hx, ht, hl]
    simp only [Option.getD_some]
    rw [if_pos hge]
  · intro hge
    unfold apply_powerup
    rw [hx, ht]
    simp only [Option.getD_some]
    rw [if_pos hge, hl]

/-- Witness for C5: the spec scenario, XP 90 and threshold 100 granted
30 by an xp powerup. -/
theorem C5_single_level_up_witness :
    (100 : ℚ) ≤ 90 + 30 ∧
    apply_powerup 0 PowerupType.xp pC5 =
      some { pC5 with xp := some 20, level := some 2, xp_to_next_level := some 150,
                      upgrade_points := some 1 } := by
  have h := (C5_single_level_up pC5 90 100 1 1 0 rfl rfl rfl).2 (by norm_num)
  refine ⟨by norm_num, h.trans ?_⟩
  norm_num [pC5, basePlayer, truncQ]

/-- C6: the spec scenario — an enemy at health 5 hit by a penetration-1,
damage-10 bullet owned by registered player `p1` (XP 0, threshold 100,
difficulty multiplier 1): the enemy is removed and replaced so the
collection length is unchanged, the bullet is removed, and `p1` is
credited exactly 10 XP. -/
theorem C6_kill_reward_scenario :
    update_game_state 1280 720 envC6 stC6 = some stC6' ∧
    stC6'.enemies.length = stC6.enemies.length ∧
    stC6'.enemies = [spawn_enemy .normal spawn0] ∧
    stC6'.bullets = [] ∧
    (lookup_player stC6'.players "p1").map Player.xp = some (some 10) := by
  refine ⟨?_, by decide, rfl, rfl, by decide⟩
  norm_num +decide [update_game_state, tick_prelude, spawn_powerup, enemy_phase,
    enemy_phase_go, step_enemy, closest_player, bullet_phase, run_bullets, step_bullet,
    bullet_speed, resolve_bullet, resolve_player_hit, resolve_enemy_hit, splitFirst,
    enemy_hit_test, player_hit_test, powerup_hit_test, collideB, powerup_pass, apply_powerup,
    apply_enemy_bullet_damage, grant_kill_xp, modify_player, lookup_player, spawn_enemy,
    DIFFICULTY_SETTINGS, BULLET_SPEED, ENEMY_BULLET_SPEED, envC6, stC6, pC6, eC6, bC6,
    spawn0, eenv0, benv0, basePlayer, stC6']

/-- C7: the per-connection merge is a full replacement of `players[id]`
and is idempotent for a payload with no new bullets: merging the same
payload twice leaves the players map identical to the single merge
(hence `players[id]` bit-for-bit identical) and the bullets collection
untouched by the second merge. -/
theorem C7_merge_idempotent (st : ServerState) (id : String) (pd : Player) (n1 n2 : ℚ)
    (h : pd.new_bullets = []) :
    (merge_player_update (merge_player_update st id pd n1) id pd n2).players =
      (merge_player_update st id pd n1).players ∧
    (merge_player_update (merge_player_update st id pd n1) id pd n2).bullets =
      (merge_player_update st id pd n1).bullets := by
  unfold merge_player_update
  constructor
  · exact set_player_idem _ _ _
  · simp [h]

/-- Witness for C7 at a concrete state and payload. -/
theorem C7_merge_idempotent_witness :
    pd7.new_bullets = [] ∧
    (merge_player_update (merge_player_update st3 "p1" pd7 1) "p1" pd7 2).players =
      (merge_player_update st3 "p1" pd7 1).players ∧
    (merge_player_update (merge_player_update st3 "p1" pd7 1) "p1" pd7 2).bullets =
      (merge_player_update st3 "p1" pd7 1).bullets := by
  have h := C7_merge_idempotent st3 "p1" pd7 1 2 rfl
  exact ⟨rfl, h.1, h.2⟩

/-- C8 counterexample: with five powerups already present, a tick in
which an enemy dies with the drop roll succeeding appends a sixth
powerup — the enemy-death drop path has no capacity check. -/
theorem C8_capacity_counterexample :
    stC8.powerups.length = 5 ∧
    (update_game_state 1280 720 envC8 stC8).map (fun s => s.powerups.length) = some 6 := by
  refine ⟨by decide, ?_⟩
  norm_num +decide [update_game_state, tick_prelude, spawn_powerup, enemy_phase,
    enemy_phase_go, step_enemy, closest_player, bullet_phase, run_bullets, step_bullet,
    bullet_speed, resolve_bullet, resolve_player_hit, resolve_enemy_hit, splitFirst,
    enemy_hit_test, player_hit_test, powerup_hit_test, collideB, powerup_pass, apply_powerup,
    apply_enemy_bullet_damage, grant_kill_xp, modify_player, lookup_player, spawn_enemy,
    DIFFICULTY_SETTINGS, BULLET_SPEED, ENEMY_BULLET_SPEED, envC8, stC8, eC8, bC8, puC8,
    spawn0, eenv0, benv8, stC8]

/-- C8 amended: the periodic spawn path (`spawn_powerup`) is a silent
no-op that leaves the whole state unchanged whenever five or more
powerups exist; the enemy-death drop path appends unconditionally. -/
theorem C8_periodic_spawn_capacity (env : TickEnv) (st : ServerState)
    (h : 5 ≤ st.powerups.length) :
    spawn_powerup env st = st := by
  unfold spawn_powerup
  rw [if_pos h]

/-- Witness for C8 amended at the full powerup store. -/
theorem C8_periodic_spawn_capacity_witness :
    5 ≤ stC8.powerups.length ∧ spawn_powerup envC8 stC8 = stC8 :=
  ⟨by decide, C8_periodic_spawn_capacity envC8 stC8 (by decide)⟩

/-- C9 counterexample: a freshly connected client that has never sent
any update still computes a ping from a snapshot carrying a `send_time`
stamp — the code checks only the snapshot field, not the presence of a
client-side send timestamp. -/
theorem C9_ping_counterexample :
    (init_client 0).ping = 0 ∧
    (receive_data (init_client 0) snap9 2).ping = 1000 := by
  refine ⟨rfl, ?_⟩
  show truncQ ((2 - 1) * 1000) = 1000
  norm_num [truncQ]

/-- C9 amended: every successful receive replaces the cached snapshot
unconditionally and records the receive time; the latency estimate
`int((receive_time - snapshot.send_time) * 1000)` is recomputed exactly
when the snapshot carries a `send_time` stamp (the server timestamp of
the snapshot), regardless of whether the client ever sent. -/
theorem C9_receive_replaces_and_pings (c : NetworkClient) (snap : Snapshot) (rt : ℚ) :
    (receive_data c snap rt).game_state = snap ∧
    (receive_data c snap rt).last_received = rt ∧
    (receive_data c snap rt).ping =
      (match snap.send_time with
       | some t => truncQ ((rt - t) * 1000)
       | none => c.ping) :=
  ⟨rfl, rfl, rfl⟩

/-- C10: combat resolution never removes a player from World State and
never clamps health at zero — a tick preserves the list of player
identifiers, an enemy-bullet hit on a shieldless player subtracts the
damage unconditionally, iterated hits drive health below any bound, and
the disconnect cleanup is the operation that removes an identifier. -/
theorem C10_no_player_removal_no_clamp :
    (∀ (W H : ℚ) (env : TickEnv) (st st' : ServerState),
        update_game_state W H env st = some st' →
        st'.players.map Prod.fst = st.players.map Prod.fst) ∧
    (∀ (p : Player) (d : ℚ), p.shield = none →
        (apply_enemy_bullet_damage d p).health = p.health - d) ∧
    (∀ (p : Player) (d : ℚ) (k : Nat), p.shield = none →
        (hit_iter d k p).health = p.health - k * d) ∧
    (∀ (p : Player) (d bound : ℚ), p.shield = none → 0 < d →
        ∃ k : Nat, (hit_iter d k p).health < bound) ∧
    (∀ (st : ServerState) (id : String),
        lookup_player (disconnect_cleanup st id).players id = none) := by
  refine ⟨update_player_keys, ?_, ?_, ?_, ?_⟩
  · intro p d hs
    unfold apply_enemy_bullet_damage
    rw [hs]
  · intro p d k hs
    exact (hit_iter_spec d k p hs).1
  · intro p d bound hs hd
    obtain ⟨k, hk⟩ := exists_nat_gt ((p.health - bound) / d)
    refine ⟨k, ?_⟩
    rw [(hit_iter_spec d k p hs).1]
    rw [div_lt_iff₀ hd] at hk
    linarith
  · intro st id
    exact lookup_filter_ne st.players id

/-- Witness for C10 at concrete players and state. -/
theorem C10_no_player_removal_no_clamp_witness :
    basePlayer.shield = none ∧
    (apply_enemy_bullet_damage 5 basePlayer).health = basePlayer.health - 5 ∧
    lookup_player (disconnect_cleanup stC4 "p1").players "p1" = none :=
  ⟨rfl, C10_no_player_removal_no_clamp.2.1 basePlayer 5 rfl,
   C10_no_player_removal_no_clamp.2.2.2.2 stC4 "p1"⟩
